import Mathlib

/-!
Verification of the skrl example scripts
`docs/source/examples/gym/a2c_gym_pendulumnovel.py` and
`docs/source/examples/isaacgym/trpo_cartpole.py`.

The scripts are shallowly embedded: feed-forward networks become functions on
lists of reals, the observation wrapper becomes a pure list transform, the
try/except loader fallback becomes a function on `Except` values with an event
trace, the Python dictionary configuration becomes an explicit heap of
dictionaries (so that the shallow `dict.copy` semantics is visible), and the
library components that are not part of the two source files (the default
configuration dictionaries, the rollout memory, the model-parameter life
cycle) are modelled from the specification.
-/

/-! ## Feed-forward networks (Policy / Value classes of both scripts) -/

/-- Dot product of two real vectors (the core of `nn.Linear`). -/
def dot (xs ys : List ℝ) : ℝ :=
  (List.zipWith (fun a b => a * b) xs ys).sum

/-- `nn.Linear`: affine map given by a weight matrix (list of rows) and a bias
vector, applied to an input vector. -/
def linearLayer (w : List (List ℝ)) (b : List ℝ) (x : List ℝ) : List ℝ :=
  List.zipWith (fun row bi => dot row x + bi) w b

/-- `nn.ReLU` activation. -/
def relu (x : ℝ) : ℝ := max x 0

/-- `nn.ELU` activation (default alpha = 1). -/
noncomputable def elu (x : ℝ) : ℝ := if 0 < x then x else Real.exp x - 1

/-- Parameters of the three-layer perceptrons used by both scripts
(`Linear`, activation, `Linear`, activation, `Linear`). -/
structure MLPParams where
  w1 : List (List ℝ)
  b1 : List ℝ
  w2 : List (List ℝ)
  b2 : List ℝ
  w3 : List (List ℝ)
  b3 : List ℝ

/-- The A2C script's `Policy.net`: Linear, ReLU, Linear, ReLU, Linear. -/
def a2cPolicyNet (p : MLPParams) (states : List ℝ) : List ℝ :=
  linearLayer p.w3 p.b3
    ((linearLayer p.w2 p.b2 ((linearLayer p.w1 p.b1 states).map relu)).map relu)

/-- The A2C script's `Policy.compute`: the Pendulum-v1 action space is
[-2, 2], so the network output is squashed as `2 * torch.tanh(...)`; the
log-std parameter is returned alongside. -/
noncomputable def a2cPolicyCompute (p : MLPParams) (logStd : List ℝ) (states : List ℝ) :
    List ℝ × List ℝ :=
  ((a2cPolicyNet p states).map (fun y => 2 * Real.tanh y), logStd)

/-- The TRPO script's `Policy.net`: Linear, ELU, Linear, ELU, Linear. -/
noncomputable def trpoPolicyNet (p : MLPParams) (states : List ℝ) : List ℝ :=
  linearLayer p.w3 p.b3
    ((linearLayer p.w2 p.b2 ((linearLayer p.w1 p.b1 states).map elu)).map elu)

/-- The TRPO script's `Policy.compute`: returns the raw network output (no
squashing) together with the log-std parameter. -/
noncomputable def trpoPolicyCompute (p : MLPParams) (logStd : List ℝ) (states : List ℝ) :
    List ℝ × List ℝ :=
  (trpoPolicyNet p states, logStd)

/-- The A2C script's `Value.compute`: the raw ReLU network output. -/
def a2cValueCompute (p : MLPParams) (states : List ℝ) : List ℝ :=
  linearLayer p.w3 p.b3
    ((linearLayer p.w2 p.b2 ((linearLayer p.w1 p.b1 states).map relu)).map relu)

/-! ## The NoVelocityWrapper observation transform -/

/-- The mask `np.array([1, 1, 0])` of `NoVelocityWrapper.observation`. -/
def noVelocityMask : List ℝ := [1, 1, 0]

/-- `NoVelocityWrapper.observation`: elementwise product of the observation
(x, y, angular velocity) with the mask `[1, 1, 0]`. -/
def noVelocityObservation (observation : List ℝ) : List ℝ :=
  List.zipWith (fun a b => a * b) observation noVelocityMask

/-! ## Helper lemmas about tanh -/

lemma abs_tanh_lt_one (x : ℝ) : |Real.tanh x| < 1 := by
  rw [Real.tanh_eq_sinh_div_cosh, abs_div, abs_of_pos (Real.cosh_pos x),
    div_lt_one (Real.cosh_pos x), abs_lt]
  constructor
  · have h := Real.sinh_lt_cosh (-x)
    rw [Real.sinh_neg, Real.cosh_neg] at h
    linarith
  · exact Real.sinh_lt_cosh x

/-! ## C2, C6, C9: the observation transform -/

/-- C2: for every observation of the expected shape (the 3-vector x, y,
angular velocity), the masking transform zeroes exactly the third component
and returns the first two unchanged. -/
theorem noVelocity_zeroes_third_component (a b c : ℝ) :
    noVelocityObservation [a, b, c] = [a, b, 0] := by
  simp [noVelocityObservation, noVelocityMask]

/-- C9: the masking transform is idempotent on observations of the expected
shape. -/
theorem noVelocity_idempotent (a b c : ℝ) :
    noVelocityObservation (noVelocityObservation [a, b, c]) =
      noVelocityObservation [a, b, c] := by
  simp [noVelocityObservation, noVelocityMask]

/-- C6: the masking transform is a pure total function: on any observation of
the expected shape it produces an output of the same shape (it cannot fail),
and any two applications to equal inputs return equal outputs. -/
theorem noVelocity_pure_total (o o2 : List ℝ) (h : o.length = 3)
    (h2 : o = o2) :
    (noVelocityObservation o).length = 3 ∧
      noVelocityObservation o = noVelocityObservation o2 := by
  subst h2
  refine ⟨?_, rfl⟩
  simp [noVelocityObservation, noVelocityMask, h]

/-- Witness for C6 at the concrete observation [1, 2, 3]. -/
theorem noVelocity_pure_total_witness :
    ([1, 2, 3] : List ℝ).length = 3 ∧
      (noVelocityObservation [1, 2, 3]).length = 3 ∧
        noVelocityObservation [1, 2, 3] = noVelocityObservation [1, 2, 3] :=
  ⟨by simp, noVelocity_pure_total [1, 2, 3] [1, 2, 3] (by simp) rfl⟩

/-! ## C1: policy outputs and action bounds -/

/-- A list of `n` zero weights. -/
def zeros (n : ℕ) : List ℝ := List.replicate n 0

lemma dot_replicate_zero : ∀ (n : ℕ) (v : List ℝ), dot (List.replicate n 0) v = 0
  | 0, _ => by simp [dot]
  | _ + 1, [] => by simp [dot]
  | n + 1, a :: v => by
    have ih := dot_replicate_zero n v
    simp only [dot, List.replicate_succ, List.zipWith_cons_cons, List.sum_cons] at ih ⊢
    simp [ih]

lemma elu_zero : elu 0 = 0 := by
  simp [elu, Real.exp_zero]

lemma linearLayer_replicate (n : ℕ) (row : List ℝ) (bi : ℝ) (x : List ℝ) :
    linearLayer (List.replicate n row) (List.replicate n bi) x =
      List.replicate n (dot row x + bi) := by
  induction n with
  | zero => simp [linearLayer]
  | succ n ih =>
    simp only [linearLayer, List.replicate_succ, List.zipWith_cons_cons] at ih ⊢
    simp [ih]

/-- TRPO policy parameters with all-zero weights (hidden width 32, as in the
script, one input and one action dimension) and final bias `[c]`. -/
def cexTRPOParams (c : ℝ) : MLPParams :=
  ⟨List.replicate 32 (zeros 1), zeros 32, List.replicate 32 (zeros 32),
    zeros 32, [zeros 32], [c]⟩

lemma trpoPolicyNet_cex (c : ℝ) : trpoPolicyNet (cexTRPOParams c) [0] = [c] := by
  have h1 : linearLayer (List.replicate 32 (List.replicate 1 (0 : ℝ)))
      (List.replicate 32 0) [0] = List.replicate 32 0 := by
    rw [linearLayer_replicate, dot_replicate_zero]
    norm_num
  have h2 : linearLayer (List.replicate 32 (List.replicate 32 (0 : ℝ)))
      (List.replicate 32 0) (List.replicate 32 0) = List.replicate 32 0 := by
    rw [linearLayer_replicate, dot_replicate_zero]
    norm_num
  simp only [trpoPolicyNet, cexTRPOParams, zeros]
  rw [h1, List.map_replicate, elu_zero, h2, List.map_replicate, elu_zero]
  simp only [linearLayer, List.zipWith_cons_cons, List.zipWith_nil_left,
    dot_replicate_zero, zero_add]

/-- Zero-weight parameters for the A2C policy (hidden width 64, as in the
script). -/
def zeroA2CParams : MLPParams :=
  ⟨List.replicate 64 (zeros 1), zeros 64, List.replicate 64 (zeros 64),
    zeros 64, [zeros 64], [0]⟩

lemma relu_zero : relu 0 = 0 := by
  simp [relu]

lemma a2cPolicyNet_zero_weights : a2cPolicyNet zeroA2CParams [0] = [0] := by
  have h1 : linearLayer (List.replicate 64 (List.replicate 1 (0 : ℝ)))
      (List.replicate 64 0) [0] = List.replicate 64 0 := by
    rw [linearLayer_replicate, dot_replicate_zero]
    norm_num
  have h2 : linearLayer (List.replicate 64 (List.replicate 64 (0 : ℝ)))
      (List.replicate 64 0) (List.replicate 64 0) = List.replicate 64 0 := by
    rw [linearLayer_replicate, dot_replicate_zero]
    norm_num
  simp only [a2cPolicyNet, zeroA2CParams, zeros]
  rw [h1, List.map_replicate, relu_zero, h2, List.map_replicate, relu_zero]
  simp only [linearLayer, List.zipWith_cons_cons, List.zipWith_nil_left,
    dot_replicate_zero, zero_add]

/-- C1 (amended): the A2C Pendulum policy's `compute` squashes the network
output by `2 * tanh`, so every action component lies within the declared
Pendulum action bounds [-2, 2] for every input and every choice of weights;
the TRPO Cartpole policy's `compute`, by contrast, returns the raw network
output, which is not squashed and exceeds any prescribed bound for a suitable
choice of weights. -/
theorem policy_compute_bounds :
    (∀ (p : MLPParams) (ls x : List ℝ) (y : ℝ),
        y ∈ (a2cPolicyCompute p ls x).1 → -2 ≤ y ∧ y ≤ 2) ∧
    (∀ B : ℝ, ∃ (p : MLPParams) (ls x : List ℝ) (y : ℝ),
        y ∈ (trpoPolicyCompute p ls x).1 ∧ B < y) := by
  constructor
  · intro p ls x y hy
    simp only [a2cPolicyCompute, List.mem_map] at hy
    rcases hy with ⟨v, _, rfl⟩
    have h := abs_tanh_lt_one v
    rw [abs_lt] at h
    constructor <;> linarith
  · intro B
    refine ⟨cexTRPOParams (B + 1), [0], [0], B + 1, ?_, by linarith⟩
    simp only [trpoPolicyCompute]
    rw [trpoPolicyNet_cex]
    exact List.mem_singleton.2 rfl

/-- Witness for C1's amended theorem at the zero-weight A2C policy and the
input `[0]`: the output component 0 is within the bounds. -/
theorem policy_compute_bounds_witness :
    (0 : ℝ) ∈ (a2cPolicyCompute zeroA2CParams [0] [0]).1 ∧
      (-2 ≤ (0 : ℝ) ∧ (0 : ℝ) ≤ 2) := by
  have hm : (0 : ℝ) ∈ (a2cPolicyCompute zeroA2CParams [0] [0]).1 := by
    simp only [a2cPolicyCompute]
    rw [a2cPolicyNet_zero_weights]
    simp [Real.tanh_zero]
  exact ⟨hm, policy_compute_bounds.1 zeroA2CParams [0] [0] 0 hm⟩

/-- C1 counterexample: the claim, read for the TRPO Cartpole policy, is
false: with concrete all-zero weights and final bias 3, the `compute` output
on the input `[0]` is `[3]`, which lies outside the [-2, 2] bounds that a
scaled-tanh squashing would guarantee. -/
theorem trpo_policy_unbounded_counterexample :
    ¬ (∀ (p : MLPParams) (ls x : List ℝ) (y : ℝ),
        y ∈ (trpoPolicyCompute p ls x).1 → -2 ≤ y ∧ y ≤ 2) := by
  intro h
  have h3 := h (cexTRPOParams 3) [0] [0] 3 ?_
  · linarith [h3.2]
  · simp only [trpoPolicyCompute]
    rw [trpoPolicyNet_cex]
    exact List.mem_singleton.2 rfl

/-! ## C3: the Isaac Gym environment-loader fallback -/

/-- Observable events of the try/except block of the TRPO script. -/
inductive LoadEvent where
  | triedPrimary
  | printedError (msg : String)
  | triedSecondary
deriving DecidableEq

/-- The message printed by the except branch:
`"Isaac Gym (preview 3/4) failed: {}\nTrying preview 2..."` formatted with
the captured error. -/
def failMessage (e : String) : String :=
  "Isaac Gym (preview 3/4) failed: " ++ e ++ "\nTrying preview 2..."

/-- The try/except block of the TRPO script: try
`load_isaacgym_env_preview4`; on any exception print the captured error and
call `load_isaacgym_env_preview2`, whose result or failure is the result of
the block. -/
def loadEnvWithFallback {α : Type} (primary secondary : Except String α) :
    Except String α × List LoadEvent :=
  match primary with
  | Except.ok v => (Except.ok v, [LoadEvent.triedPrimary])
  | Except.error e =>
      (secondary,
        [LoadEvent.triedPrimary, LoadEvent.printedError (failMessage e),
          LoadEvent.triedSecondary])

/-- C3: the secondary loader is invoked if and only if the primary loader
raises; when the primary succeeds its result is used unchanged and nothing
is printed; when it fails, the captured error is printed before the
secondary attempt, and the secondary loader's result or failure is
propagated unchanged. -/
theorem loader_fallback_spec {α : Type} (primary secondary : Except String α) :
    (LoadEvent.triedSecondary ∈ (loadEnvWithFallback primary secondary).2 ↔
        ∃ e, primary = Except.error e) ∧
    (∀ v, primary = Except.ok v →
        loadEnvWithFallback primary secondary =
          (Except.ok v, [LoadEvent.triedPrimary])) ∧
    (∀ e, primary = Except.error e →
        loadEnvWithFallback primary secondary =
          (secondary,
            [LoadEvent.triedPrimary, LoadEvent.printedError (failMessage e),
              LoadEvent.triedSecondary])) := by
  cases primary <;> simp [loadEnvWithFallback]

/-- Witness for C3 at a failing primary loader and a succeeding secondary
loader. -/
theorem loader_fallback_spec_witness :
    (Except.error "no preview 4" : Except String ℕ) =
        Except.error "no preview 4" ∧
      loadEnvWithFallback (Except.error "no preview 4")
          (Except.ok 7 : Except String ℕ) =
        (Except.ok 7,
          [LoadEvent.triedPrimary,
            LoadEvent.printedError (failMessage "no preview 4"),
            LoadEvent.triedSecondary]) :=
  ⟨rfl,
    (loader_fallback_spec (Except.error "no preview 4") (Except.ok 7)).2.2
      "no preview 4" rfl⟩

/-! ## C5: mutation of model parameters -/

/-- Modelled from the spec: the operations the scripts perform on a model's
weight/bias tensors after construction. The `Model` class, its
`init_parameters` method and the optimizer are library code not under
`src/`; the TRPO script calls `model.init_parameters(method_name="normal_",
mean=0.0, std=0.1)` on both models, which re-draws every parameter, the
agent's update routine applies an optimizer step, and acting/computing reads
the parameters without changing them. -/
inductive ModelOp where
  | initParameters (newParams : List ℚ)
  | updateStep (delta : List ℚ)
  | actOp (states : List ℚ)
deriving DecidableEq

/-- Modelled from the spec: the effect of each operation on the parameter
vector. -/
def applyModelOp (params : List ℚ) : ModelOp → List ℚ
  | ModelOp.initParameters nw => nw
  | ModelOp.updateStep d => List.zipWith (fun w g => w - g) params d
  | ModelOp.actOp _ => params

/-- Whether an operation is the optimizer step inside the update routine. -/
def isUpdateStep : ModelOp → Bool
  | ModelOp.updateStep _ => true
  | _ => false

/-- Whether an operation is the script's `init_parameters` call. -/
def isInitParameters : ModelOp → Bool
  | ModelOp.initParameters _ => true
  | _ => false

/-- C5 counterexample: the TRPO script's `init_parameters` call (lines
78-79) is not the optimizer step of the update routine, yet it changes the
parameters: re-initializing the parameter vector `[0]` to `[1]` yields
`[1] ≠ [0]`. -/
theorem init_parameters_mutates_counterexample :
    isUpdateStep (ModelOp.initParameters [1]) = false ∧
      applyModelOp [0] (ModelOp.initParameters [1]) ≠ [0] := by
  refine ⟨rfl, ?_⟩
  simp [applyModelOp]

/-- C5 (amended): after construction, the model parameters are changed only
by the script's explicit `init_parameters` call and by the optimizer step
inside the update routine; every other operation leaves them unchanged. -/
theorem model_params_frame (params : List ℚ) (op : ModelOp)
    (h1 : isUpdateStep op = false) (h2 : isInitParameters op = false) :
    applyModelOp params op = params := by
  cases op <;> simp_all [isUpdateStep, isInitParameters, applyModelOp]

/-- Witness for C5's amended theorem at an `act` operation. -/
theorem model_params_frame_witness :
    isUpdateStep (ModelOp.actOp [5]) = false ∧
      isInitParameters (ModelOp.actOp [5]) = false ∧
        applyModelOp [1, 2] (ModelOp.actOp [5]) = [1, 2] :=
  ⟨rfl, rfl, model_params_frame [1, 2] (ModelOp.actOp [5]) rfl rfl⟩

/-! ## C7: the rollout memory -/

/-- Modelled from the spec: the `RandomMemory` rollout buffer (library code
not under `src/`): a fixed-capacity store keyed by insertion position, with
an insertion index that wraps around at capacity and a "filled" signal. -/
structure RolloutMemory (T : Type) where
  capacity : ℕ
  store : List T
  pos : ℕ
  filled : Bool

/-- A freshly created memory of the given capacity. -/
def emptyMemory (T : Type) (c : ℕ) : RolloutMemory T :=
  ⟨c, [], 0, false⟩

/-- Modelled from the spec: appending a transition. Below capacity the store
grows; at capacity the entry at the wrapped insertion index is overwritten
(wraparound, no growth). -/
def memAdd {T : Type} (m : RolloutMemory T) (x : T) : RolloutMemory T :=
  if m.store.length < m.capacity then
    { m with store := m.store ++ [x]
             pos := (m.pos + 1) % m.capacity
             filled := if m.capacity ≤ m.pos + 1 then true else m.filled }
  else
    { m with store := m.store.set (m.pos % m.capacity) x
             pos := (m.pos + 1) % m.capacity
             filled := true }

/-- The memory obtained by recording a whole list of transitions into a
fresh memory of capacity `c`. -/
def memFill (T : Type) (c : ℕ) (ts : List T) : RolloutMemory T :=
  ts.foldl memAdd (emptyMemory T c)

/-- Modelled from the spec: one update consumes each stored transition at
most once; the batch is indexed by the list of stored slots, each listed
exactly once. -/
def sampleAllIndices {T : Type} (m : RolloutMemory T) : List ℕ :=
  List.range m.store.length

lemma memAdd_capacity {T : Type} (m : RolloutMemory T) (x : T) :
    (memAdd m x).capacity = m.capacity := by
  unfold memAdd
  split <;> rfl

lemma memAdd_length {T : Type} (m : RolloutMemory T) (x : T) :
    (memAdd m x).store.length =
      if m.store.length < m.capacity then m.store.length + 1
      else m.store.length := by
  unfold memAdd
  split <;> simp

lemma foldl_memAdd_length {T : Type} (ts : List T) (m : RolloutMemory T)
    (h : m.store.length ≤ m.capacity) :
    (ts.foldl memAdd m).store.length =
      min (m.store.length + ts.length) m.capacity := by
  induction ts generalizing m with
  | nil =>
    simp only [List.foldl_nil, List.length_nil, Nat.add_zero]
    omega
  | cons t ts ih =>
    rw [List.foldl_cons,
      ih (memAdd m t) (by rw [memAdd_length, memAdd_capacity]; split <;> omega)]
    rw [memAdd_length, memAdd_capacity]
    simp only [List.length_cons]
    split <;> omega

/-- C7: the rollout buffer never stores more transitions than its configured
capacity: filling a fresh memory of capacity `c` with any list of
transitions leaves at most (and, once enough have been appended, exactly)
`c` stored; appending to a full memory wraps around without growing the
store; and one update consumes each stored transition at most once. -/
theorem memory_capacity_invariant {T : Type} (ts : List T) (c : ℕ)
    (m : RolloutMemory T) (x : T) (hc : c ≤ ts.length)
    (hm : ¬ m.store.length < m.capacity) :
    (memFill T c ts).store.length ≤ c ∧
      (memFill T c ts).store.length = c ∧
        (memAdd m x).store.length = m.store.length ∧
          (sampleAllIndices (memFill T c ts)).Nodup := by
  have hlen := foldl_memAdd_length ts (emptyMemory T c) (by simp [emptyMemory])
  have hcap : (emptyMemory T c).capacity = c := rfl
  have hnil : (emptyMemory T c).store.length = 0 := rfl
  rw [hcap, hnil, Nat.zero_add] at hlen
  refine ⟨?_, ?_, ?_, ?_⟩
  · rw [memFill, hlen]
    omega
  · rw [memFill, hlen]
    omega
  · rw [memAdd_length, if_neg hm]
  · simp [sampleAllIndices, List.nodup_range]

/-- Witness for C7: capacity 2 (a stand-in for the scripts' 1024 and 16),
three recorded transitions, and an already-full memory being appended to. -/
theorem memory_capacity_invariant_witness :
    (2 ≤ ([10, 20, 30] : List ℕ).length ∧
        ¬ (memFill ℕ 2 [10, 20, 30]).store.length <
            (memFill ℕ 2 [10, 20, 30]).capacity) ∧
      ((memFill ℕ 2 [10, 20, 30]).store.length ≤ 2 ∧
        (memFill ℕ 2 [10, 20, 30]).store.length = 2 ∧
          (memAdd (memFill ℕ 2 [10, 20, 30]) 40).store.length =
              (memFill ℕ 2 [10, 20, 30]).store.length ∧
            (sampleAllIndices (memFill ℕ 2 [10, 20, 30])).Nodup) :=
  ⟨⟨by decide, by decide⟩,
    memory_capacity_invariant [10, 20, 30] 2 (memFill ℕ 2 [10, 20, 30]) 40
      (by decide) (by decide)⟩

/-! ## C4, C8, C10: configuration dictionaries and shallow copy -/

/-- A Python value stored in a configuration dictionary: a number, an opaque
object (class, device, space) identified by its source text, a reference to
another heap-allocated dictionary, or an inline dictionary literal (used for
the fresh `..._kwargs` literals, which nothing else aliases). -/
inductive CVal where
  | num (q : ℚ)
  | str (s : String)
  | ref (a : ℕ)
  | dict (d : List (String × CVal))

/-- A Python dictionary: ordered key/value entries. -/
abbrev PyDict := List (String × CVal)

/-- Dictionary lookup, `d[k]`. -/
def dictGet : PyDict → String → Option CVal
  | [], _ => none
  | (k2, v) :: rest, k => if k2 = k then some v else dictGet rest k

/-- Dictionary assignment, `d[k] = v`: replaces the value of an existing key
in place, otherwise appends the new key. -/
def dictSet : PyDict → String → CVal → PyDict
  | [], k, v => [(k, v)]
  | (k2, v2) :: rest, k, v =>
      if k2 = k then (k, v) :: rest else (k2, v2) :: dictSet rest k v

/-- A heap of dictionary objects: Python dictionaries are mutable objects
reached through references, which is what makes `dict.copy()` shallow. -/
structure PyState where
  heap : ℕ → PyDict
  next : ℕ

/-- Overwrite the dictionary object at address `a`. -/
def heapWrite (st : PyState) (a : ℕ) (d : PyDict) : PyState :=
  ⟨fun b => if b = a then d else st.heap b, st.next⟩

/-- `d.copy()`: allocates a new dictionary at the next free address holding
the same entries; values that are references still point to the same nested
objects (a shallow copy). -/
def copyDict (st : PyState) (a : ℕ) : PyState :=
  ⟨fun b => if b = st.next then st.heap a else st.heap b, st.next + 1⟩

/-- `cfg[k] = v`, a top-level assignment to the dictionary at address `a`. -/
def setTop (st : PyState) (a : ℕ) (k : String) (v : CVal) : PyState :=
  heapWrite st a (dictSet (st.heap a) k v)

/-- `cfg[k1][k2] = v`: looks the nested dictionary up through the reference
stored at `k1` and mutates that shared object in place. -/
def setNested (st : PyState) (a : ℕ) (k1 k2 : String) (v : CVal) : PyState :=
  match dictGet (st.heap a) k1 with
  | some (CVal.ref b) => heapWrite st b (dictSet (st.heap b) k2 v)
  | _ => st

/-- `cfg[k1][k2]`, reading through the stored reference. -/
def getNested (st : PyState) (a : ℕ) (k1 k2 : String) : Option CVal :=
  match dictGet (st.heap a) k1 with
  | some (CVal.ref b) => dictGet (st.heap b) k2
  | _ => none

/-- A sequence of top-level assignments to the dictionary at address `a`. -/
def setTops : PyState → ℕ → List (String × CVal) → PyState
  | st, _, [] => st
  | st, a, (k, v) :: rest => setTops (setTop st a k v) a rest

/-- The pure effect of a sequence of assignments on a single dictionary. -/
def applySets (d : PyDict) (ops : List (String × CVal)) : PyDict :=
  ops.foldl (fun acc kv => dictSet acc kv.1 kv.2) d

/-- The top-level assignments of `cfg_a2c` in the A2C script (lines 82-97),
in program order. -/
def a2cOverrides : List (String × CVal) :=
  [("rollouts", CVal.num 1024),
   ("learning_epochs", CVal.num 10),
   ("mini_batches", CVal.num 32),
   ("discount_factor", CVal.num (9 / 10)),
   ("lambda", CVal.num (95 / 100)),
   ("learning_rate", CVal.num (1 / 1000)),
   ("learning_rate_scheduler", CVal.str "KLAdaptiveRL"),
   ("learning_rate_scheduler_kwargs",
     CVal.dict [("kl_threshold", CVal.num (8 / 1000)),
       ("min_lr", CVal.num (5 / 10000))]),
   ("random_timesteps", CVal.num 0),
   ("learning_starts", CVal.num 0),
   ("grad_norm_clip", CVal.num (5 / 10)),
   ("entropy_loss_scale", CVal.num 0),
   ("state_preprocessor", CVal.str "RunningStandardScaler"),
   ("state_preprocessor_kwargs",
     CVal.dict [("size", CVal.str "env.observation_space"),
       ("device", CVal.str "device")]),
   ("value_preprocessor", CVal.str "RunningStandardScaler"),
   ("value_preprocessor_kwargs",
     CVal.dict [("size", CVal.num 1), ("device", CVal.str "device")])]

/-- The top-level assignments of `cfg_trpo` in the TRPO script (lines
85-95), in program order. -/
def trpoOverrides : List (String × CVal) :=
  [("rollouts", CVal.num 16),
   ("learning_epochs", CVal.num 6),
   ("mini_batches", CVal.num 2),
   ("grad_norm_clip", CVal.num (5 / 10)),
   ("value_loss_scale", CVal.num 2),
   ("lambda", CVal.num (95 / 100)),
   ("state_preprocessor", CVal.str "RunningStandardScaler"),
   ("state_preprocessor_kwargs",
     CVal.dict [("size", CVal.str "env.observation_space"),
       ("device", CVal.str "device")]),
   ("value_preprocessor", CVal.str "RunningStandardScaler"),
   ("value_preprocessor_kwargs",
     CVal.dict [("size", CVal.num 1), ("device", CVal.str "device")])]

/-- The configuration block of the A2C script: `cfg_a2c =
A2C_DEFAULT_CONFIG.copy()` (allocated at address `st.next`), the sixteen
top-level assignments, then the two assignments into
`cfg_a2c["experiment"]`. -/
def a2cConfigScript (st : PyState) (defAddr : ℕ) : PyState :=
  setNested
    (setNested (setTops (copyDict st defAddr) st.next a2cOverrides)
      st.next "experiment" "write_interval" (CVal.num 500))
    st.next "experiment" "checkpoint_interval" (CVal.num 5000)

/-- The configuration block of the TRPO script: `cfg_trpo =
TRPO_DEFAULT_CONFIG.copy()`, the ten top-level assignments, then the two
assignments into `cfg_trpo["experiment"]`. -/
def trpoConfigScript (st : PyState) (defAddr : ℕ) : PyState :=
  setNested
    (setNested (setTops (copyDict st defAddr) st.next trpoOverrides)
      st.next "experiment" "write_interval" (CVal.num 16))
    st.next "experiment" "checkpoint_interval" (CVal.num 125)

lemma dictGet_dictSet (d : PyDict) (ks kq : String) (v : CVal) :
    dictGet (dictSet d ks v) kq = if ks = kq then some v else dictGet d kq := by
  induction d with
  | nil => simp [dictSet, dictGet]
  | cons hd rest ih =>
    obtain ⟨k1, v1⟩ := hd
    by_cases h1 : k1 = ks
    · subst h1
      simp only [dictSet, if_pos rfl]
      by_cases h2 : k1 = kq
      · subst h2
        simp [dictGet]
      · simp [dictGet, h2]
    · simp only [dictSet, if_neg h1, dictGet]
      by_cases h2 : k1 = kq
      · subst h2
        have hne : ¬ ks = k1 := fun hh => h1 hh.symm
        simp [dictGet, hne]
      · simp [dictGet, h2, ih]

lemma setTops_heap_self :
    ∀ (ops : List (String × CVal)) (st : PyState) (a : ℕ),
      (setTops st a ops).heap a = applySets (st.heap a) ops
  | [], _, _ => rfl
  | (k, v) :: rest, st, a => by
    rw [setTops, setTops_heap_self rest]
    simp [setTop, heapWrite, applySets]

lemma setTops_heap_ne :
    ∀ (ops : List (String × CVal)) (st : PyState) (a b : ℕ), b ≠ a →
      (setTops st a ops).heap b = st.heap b
  | [], _, _, _, _ => rfl
  | (k, v) :: rest, st, a, b, h => by
    rw [setTops, setTops_heap_ne rest _ _ _ h]
    simp [setTop, heapWrite, h]

lemma setTops_next :
    ∀ (ops : List (String × CVal)) (st : PyState) (a : ℕ),
      (setTops st a ops).next = st.next
  | [], _, _ => rfl
  | (k, v) :: rest, st, a => by
    rw [setTops, setTops_next rest]
    rfl

lemma dictGet_applySets_not_mem :
    ∀ (ops : List (String × CVal)) (d : PyDict) (k : String),
      (∀ kv ∈ ops, kv.1 ≠ k) →
      dictGet (applySets d ops) k = dictGet d k
  | [], _, _, _ => rfl
  | (k1, v1) :: rest, d, k, h => by
    have h1 : k1 ≠ k := h (k1, v1) (List.mem_cons_self _ _)
    have hrest : ∀ kv ∈ rest, kv.1 ≠ k := fun kv hkv =>
      h kv (List.mem_cons_of_mem _ hkv)
    rw [applySets, List.foldl_cons]
    rw [show (rest.foldl (fun acc kv => dictSet acc kv.1 kv.2)
      (dictSet d k1 v1)) = applySets (dictSet d k1 v1) rest from rfl]
    rw [dictGet_applySets_not_mem rest _ _ hrest, dictGet_dictSet, if_neg h1]

/-- Final heap of the A2C configuration block: the copied `cfg_a2c` holds
the default entries overwritten by the sixteen assignments; the shared
nested experiment dictionary has received `write_interval` and
`checkpoint_interval`; the top-level default dictionary itself is
untouched. -/
lemma a2cConfigScript_final (st : PyState) (defAddr expAddr : ℕ)
    (hexp : dictGet (st.heap defAddr) "experiment" = some (CVal.ref expAddr))
    (hd : defAddr ≠ st.next) (he : expAddr ≠ st.next) (hde : defAddr ≠ expAddr) :
    (a2cConfigScript st defAddr).heap st.next =
        applySets (st.heap defAddr) a2cOverrides ∧
      (a2cConfigScript st defAddr).heap expAddr =
          dictSet (dictSet (st.heap expAddr) "write_interval" (CVal.num 500))
            "checkpoint_interval" (CVal.num 5000) ∧
        (a2cConfigScript st defAddr).heap defAddr = st.heap defAddr := by
  have hc1c : (copyDict st defAddr).heap st.next = st.heap defAddr := by
    simp [copyDict]
  have hc1def : (copyDict st defAddr).heap defAddr = st.heap defAddr := by
    simp [copyDict, hd]
  have hc1exp : (copyDict st defAddr).heap expAddr = st.heap expAddr := by
    simp [copyDict, he]
  set st2 := setTops (copyDict st defAddr) st.next a2cOverrides with hst2
  have h2c : st2.heap st.next = applySets (st.heap defAddr) a2cOverrides := by
    rw [hst2, setTops_heap_self, hc1c]
  have h2def : st2.heap defAddr = st.heap defAddr := by
    rw [hst2, setTops_heap_ne _ _ _ _ hd, hc1def]
  have h2exp : st2.heap expAddr = st.heap expAddr := by
    rw [hst2, setTops_heap_ne _ _ _ _ he, hc1exp]
  have hget2 : dictGet (st2.heap st.next) "experiment" =
      some (CVal.ref expAddr) := by
    rw [h2c, dictGet_applySets_not_mem _ _ _ (by decide), hexp]
  set st3 := setNested st2 st.next "experiment" "write_interval"
    (CVal.num 500) with hst3
  have hst3eq : st3 = heapWrite st2 expAddr
      (dictSet (st2.heap expAddr) "write_interval" (CVal.num 500)) := by
    rw [hst3]
    unfold setNested
    rw [hget2]
  have h3c : st3.heap st.next = st2.heap st.next := by
    rw [hst3eq]
    simp [heapWrite, Ne.symm he]
  have h3exp : st3.heap expAddr =
      dictSet (st2.heap expAddr) "write_interval" (CVal.num 500) := by
    rw [hst3eq]
    simp [heapWrite]
  have h3def : st3.heap defAddr = st2.heap defAddr := by
    rw [hst3eq]
    simp [heapWrite, hde]
  have hget3 : dictGet (st3.heap st.next) "experiment" =
      some (CVal.ref expAddr) := by
    rw [h3c, hget2]
  have hfin : a2cConfigScript st defAddr = heapWrite st3 expAddr
      (dictSet (st3.heap expAddr) "checkpoint_interval" (CVal.num 5000)) := by
    rw [a2cConfigScript, ← hst2, ← hst3]
    unfold setNested
    rw [hget3]
  refine ⟨?_, ?_, ?_⟩
  · rw [hfin]
    simp only [heapWrite]
    rw [if_neg (Ne.symm he), h3c, h2c]
  · rw [hfin]
    simp only [heapWrite]
    simp only [if_true]
    rw [h3exp, h2exp]
  · rw [hfin]
    simp only [heapWrite]
    rw [if_neg hde, h3def, h2def]

/-- Final heap of the TRPO configuration block, analogous to the A2C one. -/
lemma trpoConfigScript_final (st : PyState) (defAddr expAddr : ℕ)
    (hexp : dictGet (st.heap defAddr) "experiment" = some (CVal.ref expAddr))
    (hd : defAddr ≠ st.next) (he : expAddr ≠ st.next) (hde : defAddr ≠ expAddr) :
    (trpoConfigScript st defAddr).heap st.next =
        applySets (st.heap defAddr) trpoOverrides ∧
      (trpoConfigScript st defAddr).heap expAddr =
          dictSet (dictSet (st.heap expAddr) "write_interval" (CVal.num 16))
            "checkpoint_interval" (CVal.num 125) ∧
        (trpoConfigScript st defAddr).heap defAddr = st.heap defAddr := by
  have hc1c : (copyDict st defAddr).heap st.next = st.heap defAddr := by
    simp [copyDict]
  have hc1def : (copyDict st defAddr).heap defAddr = st.heap defAddr := by
    simp [copyDict, hd]
  have hc1exp : (copyDict st defAddr).heap expAddr = st.heap expAddr := by
    simp [copyDict, he]
  set st2 := setTops (copyDict st defAddr) st.next trpoOverrides with hst2
  have h2c : st2.heap st.next = applySets (st.heap defAddr) trpoOverrides := by
    rw [hst2, setTops_heap_self, hc1c]
  have h2def : st2.heap defAddr = st.heap defAddr := by
    rw [hst2, setTops_heap_ne _ _ _ _ hd, hc1def]
  have h2exp : st2.heap expAddr = st.heap expAddr := by
    rw [hst2, setTops_heap_ne _ _ _ _ he, hc1exp]
  have hget2 : dictGet (st2.heap st.next) "experiment" =
      some (CVal.ref expAddr) := by
    rw [h2c, dictGet_applySets_not_mem _ _ _ (by decide), hexp]
  set st3 := setNested st2 st.next "experiment" "write_interval"
    (CVal.num 16) with hst3
  have hst3eq : st3 = heapWrite st2 expAddr
      (dictSet (st2.heap expAddr) "write_interval" (CVal.num 16)) := by
    rw [hst3]
    unfold setNested
    rw [hget2]
  have h3c : st3.heap st.next = st2.heap st.next := by
    rw [hst3eq]
    simp [heapWrite, Ne.symm he]
  have h3exp : st3.heap expAddr =
      dictSet (st2.heap expAddr) "write_interval" (CVal.num 16) := by
    rw [hst3eq]
    simp [heapWrite]
  have h3def : st3.heap defAddr = st2.heap defAddr := by
    rw [hst3eq]
    simp [heapWrite, hde]
  have hget3 : dictGet (st3.heap st.next) "experiment" =
      some (CVal.ref expAddr) := by
    rw [h3c, hget2]
  have hfin : trpoConfigScript st defAddr = heapWrite st3 expAddr
      (dictSet (st3.heap expAddr) "checkpoint_interval" (CVal.num 125)) := by
    rw [trpoConfigScript, ← hst2, ← hst3]
    unfold setNested
    rw [hget3]
  refine ⟨?_, ?_, ?_⟩
  · rw [hfin]
    simp only [heapWrite]
    rw [if_neg (Ne.symm he), h3c, h2c]
  · rw [hfin]
    simp only [heapWrite]
    simp only [if_true]
    rw [h3exp, h2exp]
  · rw [hfin]
    simp only [heapWrite]
    rw [if_neg hde, h3def, h2def]

/-- Modelled from the spec: a stand-in initial heap. The default
configuration dictionary (`A2C_DEFAULT_CONFIG` / `TRPO_DEFAULT_CONFIG`,
library code not under `src/`) lives at address 0; its "experiment" key
references the nested experiment dictionary at address 1, as the scripts'
`cfg[\x22experiment\x22][...]` assignments require; the next free heap
address is 2. -/
def exampleDefaultState : PyState where
  heap := fun a =>
    if a = 0 then
      [("rollouts", CVal.num 16), ("discount_factor", CVal.num (99 / 100)),
        ("experiment", CVal.ref 1)]
    else if a = 1 then
      [("write_interval", CVal.num 250),
        ("checkpoint_interval", CVal.num 1000), ("directory", CVal.str "")]
    else []
  next := 2

/-- Helper: a key that is not among the assigned keys differs from every
assigned key. -/
lemma not_mem_keys_forall (ops : List (String × CVal)) (k : String)
    (h : ¬ k ∈ ops.map Prod.fst) : ∀ kv ∈ ops, kv.1 ≠ k :=
  fun kv hkv heq => h (List.mem_map.2 ⟨kv, hkv, heq⟩)

/-- C4: after `cfg = DEFAULT_CONFIG.copy()` and the scripts' assignments,
every key a script assigned (top-level or inside "experiment") holds the
script's value, and every key a script did not assign still holds the
default configuration's value (top-level keys read from the copy, nested
experiment keys read through the shared reference). -/
theorem config_overrides_and_defaults
    (st stT : PyState) (defAddr expAddr defAddrT expAddrT : ℕ)
    (k k2 kT kT2 : String)
    (hexp : dictGet (st.heap defAddr) "experiment" = some (CVal.ref expAddr))
    (hd : defAddr ≠ st.next) (he : expAddr ≠ st.next)
    (hde : defAddr ≠ expAddr)
    (hk : ¬ k ∈ a2cOverrides.map Prod.fst)
    (hk2 : k2 ≠ "write_interval") (hk2b : k2 ≠ "checkpoint_interval")
    (hexpT : dictGet (stT.heap defAddrT) "experiment" =
      some (CVal.ref expAddrT))
    (hdT : defAddrT ≠ stT.next) (heT : expAddrT ≠ stT.next)
    (hdeT : defAddrT ≠ expAddrT)
    (hkT : ¬ kT ∈ trpoOverrides.map Prod.fst)
    (hkT2 : kT2 ≠ "write_interval") (hkT2b : kT2 ≠ "checkpoint_interval") :
    dictGet ((a2cConfigScript st defAddr).heap st.next) "rollouts" = some (CVal.num 1024) ∧
    dictGet ((a2cConfigScript st defAddr).heap st.next) "learning_epochs" = some (CVal.num 10) ∧
    dictGet ((a2cConfigScript st defAddr).heap st.next) "mini_batches" = some (CVal.num 32) ∧
    dictGet ((a2cConfigScript st defAddr).heap st.next) "discount_factor" = some (CVal.num (9 / 10)) ∧
    dictGet ((a2cConfigScript st defAddr).heap st.next) "lambda" = some (CVal.num (95 / 100)) ∧
    dictGet ((a2cConfigScript st defAddr).heap st.next) "learning_rate" = some (CVal.num (1 / 1000)) ∧
    dictGet ((a2cConfigScript st defAddr).heap st.next) "learning_rate_scheduler" = some (CVal.str "KLAdaptiveRL") ∧
    dictGet ((a2cConfigScript st defAddr).heap st.next) "learning_rate_scheduler_kwargs" = some (CVal.dict [("kl_threshold", CVal.num (8 / 1000)), ("min_lr", CVal.num (5 / 10000))]) ∧
    dictGet ((a2cConfigScript st defAddr).heap st.next) "random_timesteps" = some (CVal.num 0) ∧
    dictGet ((a2cConfigScript st defAddr).heap st.next) "learning_starts" = some (CVal.num 0) ∧
    dictGet ((a2cConfigScript st defAddr).heap st.next) "grad_norm_clip" = some (CVal.num (5 / 10)) ∧
    dictGet ((a2cConfigScript st defAddr).heap st.next) "entropy_loss_scale" = some (CVal.num 0) ∧
    dictGet ((a2cConfigScript st defAddr).heap st.next) "state_preprocessor" = some (CVal.str "RunningStandardScaler") ∧
    dictGet ((a2cConfigScript st defAddr).heap st.next) "state_preprocessor_kwargs" = some (CVal.dict [("size", CVal.str "env.observation_space"), ("device", CVal.str "device")]) ∧
    dictGet ((a2cConfigScript st defAddr).heap st.next) "value_preprocessor" = some (CVal.str "RunningStandardScaler") ∧
    dictGet ((a2cConfigScript st defAddr).heap st.next) "value_preprocessor_kwargs" = some (CVal.dict [("size", CVal.num 1), ("device", CVal.str "device")]) ∧
    getNested (a2cConfigScript st defAddr) st.next "experiment" "write_interval" = some (CVal.num 500) ∧
    getNested (a2cConfigScript st defAddr) st.next "experiment" "checkpoint_interval" = some (CVal.num 5000) ∧
    dictGet ((a2cConfigScript st defAddr).heap st.next) k = dictGet (st.heap defAddr) k ∧
    getNested (a2cConfigScript st defAddr) st.next "experiment" k2 = getNested st defAddr "experiment" k2 ∧
    dictGet ((trpoConfigScript stT defAddrT).heap stT.next) "rollouts" = some (CVal.num 16) ∧
    dictGet ((trpoConfigScript stT defAddrT).heap stT.next) "learning_epochs" = some (CVal.num 6) ∧
    dictGet ((trpoConfigScript stT defAddrT).heap stT.next) "mini_batches" = some (CVal.num 2) ∧
    dictGet ((trpoConfigScript stT defAddrT).heap stT.next) "grad_norm_clip" = some (CVal.num (5 / 10)) ∧
    dictGet ((trpoConfigScript stT defAddrT).heap stT.next) "value_loss_scale" = some (CVal.num 2) ∧
    dictGet ((trpoConfigScript stT defAddrT).heap stT.next) "lambda" = some (CVal.num (95 / 100)) ∧
    dictGet ((trpoConfigScript stT defAddrT).heap stT.next) "state_preprocessor" = some (CVal.str "RunningStandardScaler") ∧
    dictGet ((trpoConfigScript stT defAddrT).heap stT.next) "state_preprocessor_kwargs" = some (CVal.dict [("size", CVal.str "env.observation_space"), ("device", CVal.str "device")]) ∧
    dictGet ((trpoConfigScript stT defAddrT).heap stT.next) "value_preprocessor" = some (CVal.str "RunningStandardScaler") ∧
    dictGet ((trpoConfigScript stT defAddrT).heap stT.next) "value_preprocessor_kwargs" = some (CVal.dict [("size", CVal.num 1), ("device", CVal.str "device")]) ∧
    getNested (trpoConfigScript stT defAddrT) stT.next "experiment" "write_interval" = some (CVal.num 16) ∧
    getNested (trpoConfigScript stT defAddrT) stT.next "experiment" "checkpoint_interval" = some (CVal.num 125) ∧
    dictGet ((trpoConfigScript stT defAddrT).heap stT.next) kT = dictGet (stT.heap defAddrT) kT ∧
    getNested (trpoConfigScript stT defAddrT) stT.next "experiment" kT2 = getNested stT defAddrT "experiment" kT2 := by
  obtain ⟨ha1, ha2, ha3⟩ := a2cConfigScript_final st defAddr expAddr hexp hd he hde
  obtain ⟨ht1, ht2, ht3⟩ := trpoConfigScript_final stT defAddrT expAddrT hexpT hdT heT hdeT
  have hgetA : dictGet ((a2cConfigScript st defAddr).heap st.next)
      "experiment" = some (CVal.ref expAddr) := by
    rw [ha1, dictGet_applySets_not_mem _ _ _ (by decide), hexp]
  have hgetT : dictGet ((trpoConfigScript stT defAddrT).heap stT.next)
      "experiment" = some (CVal.ref expAddrT) := by
    rw [ht1, dictGet_applySets_not_mem _ _ _ (by decide), hexpT]
  refine ⟨?_, ?_, ?_, ?_, ?_, ?_, ?_, ?_, ?_, ?_, ?_, ?_, ?_, ?_, ?_, ?_, ?_, ?_, ?_, ?_, ?_, ?_, ?_, ?_, ?_, ?_, ?_, ?_, ?_, ?_, ?_, ?_, ?_, ?_⟩
  · rw [ha1]
    simp [applySets, a2cOverrides, dictGet_dictSet]
  · rw [ha1]
    simp [applySets, a2cOverrides, dictGet_dictSet]
  · rw [ha1]
    simp [applySets, a2cOverrides, dictGet_dictSet]
  · rw [ha1]
    simp [applySets, a2cOverrides, dictGet_dictSet]
  · rw [ha1]
    simp [applySets, a2cOverrides, dictGet_dictSet]
  · rw [ha1]
    simp [applySets, a2cOverrides, dictGet_dictSet]
  · rw [ha1]
    simp [applySets, a2cOverrides, dictGet_dictSet]
  · rw [ha1]
    simp [applySets, a2cOverrides, dictGet_dictSet]
  · rw [ha1]
    simp [applySets, a2cOverrides, dictGet_dictSet]
  · rw [ha1]
    simp [applySets, a2cOverrides, dictGet_dictSet]
  · rw [ha1]
    simp [applySets, a2cOverrides, dictGet_dictSet]
  · rw [ha1]
    simp [applySets, a2cOverrides, dictGet_dictSet]
  · rw [ha1]
    simp [applySets, a2cOverrides, dictGet_dictSet]
  · rw [ha1]
    simp [applySets, a2cOverrides, dictGet_dictSet]
  · rw [ha1]
    simp [applySets, a2cOverrides, dictGet_dictSet]
  · rw [ha1]
    simp [applySets, a2cOverrides, dictGet_dictSet]
  · unfold getNested
    rw [hgetA]
    simp [ha2, dictGet_dictSet]
  · unfold getNested
    rw [hgetA]
    simp [ha2, dictGet_dictSet]
  · rw [ha1, dictGet_applySets_not_mem _ _ _ (not_mem_keys_forall _ _ hk)]
  · unfold getNested
    rw [hgetA, hexp]
    simp [ha2, dictGet_dictSet, Ne.symm hk2, Ne.symm hk2b]
  · rw [ht1]
    simp [applySets, trpoOverrides, dictGet_dictSet]
  · rw [ht1]
    simp [applySets, trpoOverrides, dictGet_dictSet]
  · rw [ht1]
    simp [applySets, trpoOverrides, dictGet_dictSet]
  · rw [ht1]
    simp [applySets, trpoOverrides, dictGet_dictSet]
  · rw [ht1]
    simp [applySets, trpoOverrides, dictGet_dictSet]
  · rw [ht1]
    simp [applySets, trpoOverrides, dictGet_dictSet]
  · rw [ht1]
    simp [applySets, trpoOverrides, dictGet_dictSet]
  · rw [ht1]
    simp [applySets, trpoOverrides, dictGet_dictSet]
  · rw [ht1]
    simp [applySets, trpoOverrides, dictGet_dictSet]
  · rw [ht1]
    simp [applySets, trpoOverrides, dictGet_dictSet]
  · unfold getNested
    rw [hgetT]
    simp [ht2, dictGet_dictSet]
  · unfold getNested
    rw [hgetT]
    simp [ht2, dictGet_dictSet]
  · rw [ht1, dictGet_applySets_not_mem _ _ _ (not_mem_keys_forall _ _ hkT)]
  · unfold getNested
    rw [hgetT, hexpT]
    simp [ht2, dictGet_dictSet, Ne.symm hkT2, Ne.symm hkT2b]

/-- Witness for C4 at a concrete modelled default heap: the default
configuration dictionary sits at address 0, its nested experiment
dictionary at address 1; the unassigned keys checked are "experiment" and
"discount_factor" (top level) and "directory" (nested). -/
theorem config_overrides_and_defaults_witness :
    (      dictGet (exampleDefaultState.heap 0) "experiment" = some (CVal.ref 1) ∧
      (0 : ℕ) ≠ exampleDefaultState.next ∧
      (1 : ℕ) ≠ exampleDefaultState.next ∧
      (0 : ℕ) ≠ 1 ∧
      ¬ "experiment" ∈ a2cOverrides.map Prod.fst ∧
      ("directory" : String) ≠ "write_interval" ∧
      ("directory" : String) ≠ "checkpoint_interval" ∧
      ¬ "discount_factor" ∈ trpoOverrides.map Prod.fst) ∧
    (      dictGet ((a2cConfigScript exampleDefaultState 0).heap exampleDefaultState.next) "rollouts" = some (CVal.num 1024) ∧
      dictGet ((a2cConfigScript exampleDefaultState 0).heap exampleDefaultState.next) "learning_epochs" = some (CVal.num 10) ∧
      dictGet ((a2cConfigScript exampleDefaultState 0).heap exampleDefaultState.next) "mini_batches" = some (CVal.num 32) ∧
      dictGet ((a2cConfigScript exampleDefaultState 0).heap exampleDefaultState.next) "discount_factor" = some (CVal.num (9 / 10)) ∧
      dictGet ((a2cConfigScript exampleDefaultState 0).heap exampleDefaultState.next) "lambda" = some (CVal.num (95 / 100)) ∧
      dictGet ((a2cConfigScript exampleDefaultState 0).heap exampleDefaultState.next) "learning_rate" = some (CVal.num (1 / 1000)) ∧
      dictGet ((a2cConfigScript exampleDefaultState 0).heap exampleDefaultState.next) "learning_rate_scheduler" = some (CVal.str "KLAdaptiveRL") ∧
      dictGet ((a2cConfigScript exampleDefaultState 0).heap exampleDefaultState.next) "learning_rate_scheduler_kwargs" = some (CVal.dict [("kl_threshold", CVal.num (8 / 1000)), ("min_lr", CVal.num (5 / 10000))]) ∧
      dictGet ((a2cConfigScript exampleDefaultState 0).heap exampleDefaultState.next) "random_timesteps" = some (CVal.num 0) ∧
      dictGet ((a2cConfigScript exampleDefaultState 0).heap exampleDefaultState.next) "learning_starts" = some (CVal.num 0) ∧
      dictGet ((a2cConfigScript exampleDefaultState 0).heap exampleDefaultState.next) "grad_norm_clip" = some (CVal.num (5 / 10)) ∧
      dictGet ((a2cConfigScript exampleDefaultState 0).heap exampleDefaultState.next) "entropy_loss_scale" = some (CVal.num 0) ∧
      dictGet ((a2cConfigScript exampleDefaultState 0).heap exampleDefaultState.next) "state_preprocessor" = some (CVal.str "RunningStandardScaler") ∧
      dictGet ((a2cConfigScript exampleDefaultState 0).heap exampleDefaultState.next) "state_preprocessor_kwargs" = some (CVal.dict [("size", CVal.str "env.observation_space"), ("device", CVal.str "device")]) ∧
      dictGet ((a2cConfigScript exampleDefaultState 0).heap exampleDefaultState.next) "value_preprocessor" = some (CVal.str "RunningStandardScaler") ∧
      dictGet ((a2cConfigScript exampleDefaultState 0).heap exampleDefaultState.next) "value_preprocessor_kwargs" = some (CVal.dict [("size", CVal.num 1), ("device", CVal.str "device")]) ∧
      getNested (a2cConfigScript exampleDefaultState 0) exampleDefaultState.next "experiment" "write_interval" = some (CVal.num 500) ∧
      getNested (a2cConfigScript exampleDefaultState 0) exampleDefaultState.next "experiment" "checkpoint_interval" = some (CVal.num 5000) ∧
      dictGet ((a2cConfigScript exampleDefaultState 0).heap exampleDefaultState.next) "experiment" = dictGet (exampleDefaultState.heap 0) "experiment" ∧
      getNested (a2cConfigScript exampleDefaultState 0) exampleDefaultState.next "experiment" "directory" = getNested exampleDefaultState 0 "experiment" "directory" ∧
      dictGet ((trpoConfigScript exampleDefaultState 0).heap exampleDefaultState.next) "rollouts" = some (CVal.num 16) ∧
      dictGet ((trpoConfigScript exampleDefaultState 0).heap exampleDefaultState.next) "learning_epochs" = some (CVal.num 6) ∧
      dictGet ((trpoConfigScript exampleDefaultState 0).heap exampleDefaultState.next) "mini_batches" = some (CVal.num 2) ∧
      dictGet ((trpoConfigScript exampleDefaultState 0).heap exampleDefaultState.next) "grad_norm_clip" = some (CVal.num (5 / 10)) ∧
      dictGet ((trpoConfigScript exampleDefaultState 0).heap exampleDefaultState.next) "value_loss_scale" = some (CVal.num 2) ∧
      dictGet ((trpoConfigScript exampleDefaultState 0).heap exampleDefaultState.next) "lambda" = some (CVal.num (95 / 100)) ∧
      dictGet ((trpoConfigScript exampleDefaultState 0).heap exampleDefaultState.next) "state_preprocessor" = some (CVal.str "RunningStandardScaler") ∧
      dictGet ((trpoConfigScript exampleDefaultState 0).heap exampleDefaultState.next) "state_preprocessor_kwargs" = some (CVal.dict [("size", CVal.str "env.observation_space"), ("device", CVal.str "device")]) ∧
      dictGet ((trpoConfigScript exampleDefaultState 0).heap exampleDefaultState.next) "value_preprocessor" = some (CVal.str "RunningStandardScaler") ∧
      dictGet ((trpoConfigScript exampleDefaultState 0).heap exampleDefaultState.next) "value_preprocessor_kwargs" = some (CVal.dict [("size", CVal.num 1), ("device", CVal.str "device")]) ∧
      getNested (trpoConfigScript exampleDefaultState 0) exampleDefaultState.next "experiment" "write_interval" = some (CVal.num 16) ∧
      getNested (trpoConfigScript exampleDefaultState 0) exampleDefaultState.next "experiment" "checkpoint_interval" = some (CVal.num 125) ∧
      dictGet ((trpoConfigScript exampleDefaultState 0).heap exampleDefaultState.next) "discount_factor" = dictGet (exampleDefaultState.heap 0) "discount_factor" ∧
      getNested (trpoConfigScript exampleDefaultState 0) exampleDefaultState.next "experiment" "directory" = getNested exampleDefaultState 0 "experiment" "directory") := by
  have hexp : dictGet (exampleDefaultState.heap 0) "experiment" =
      some (CVal.ref 1) := rfl
  have hd : (0 : ℕ) ≠ exampleDefaultState.next := by decide
  have he : (1 : ℕ) ≠ exampleDefaultState.next := by decide
  have hde : (0 : ℕ) ≠ 1 := by decide
  have hk : ¬ "experiment" ∈ a2cOverrides.map Prod.fst := by decide
  have hk2 : ("directory" : String) ≠ "write_interval" := by decide
  have hk2b : ("directory" : String) ≠ "checkpoint_interval" := by decide
  have hkT : ¬ "discount_factor" ∈ trpoOverrides.map Prod.fst := by decide
  exact ⟨⟨hexp, hd, he, hde, hk, hk2, hk2b, hkT⟩,
    config_overrides_and_defaults exampleDefaultState exampleDefaultState
      0 1 0 1 "experiment" "directory" "discount_factor" "directory"
      hexp hd he hde hk hk2 hk2b hexp hd he hde hkT hk2 hk2b⟩

/-- C8: because `cfg = DEFAULT_CONFIG.copy()` is a shallow copy, the
assignments into the nested "experiment" dictionary of the copy also mutate
the "experiment" dictionary reached from the shared default configuration
object, while the top-level assignments leave the default dictionary itself
untouched. -/
theorem shallow_copy_mutates_default_experiment
    (st stT : PyState) (defAddr expAddr defAddrT expAddrT : ℕ)
    (hexp : dictGet (st.heap defAddr) "experiment" = some (CVal.ref expAddr))
    (hd : defAddr ≠ st.next) (he : expAddr ≠ st.next)
    (hde : defAddr ≠ expAddr)
    (hexpT : dictGet (stT.heap defAddrT) "experiment" =
      some (CVal.ref expAddrT))
    (hdT : defAddrT ≠ stT.next) (heT : expAddrT ≠ stT.next)
    (hdeT : defAddrT ≠ expAddrT) :
    getNested (a2cConfigScript st defAddr) defAddr "experiment"
        "write_interval" = some (CVal.num 500) ∧
      getNested (a2cConfigScript st defAddr) defAddr "experiment"
          "checkpoint_interval" = some (CVal.num 5000) ∧
        (a2cConfigScript st defAddr).heap defAddr = st.heap defAddr ∧
          getNested (trpoConfigScript stT defAddrT) defAddrT "experiment"
              "write_interval" = some (CVal.num 16) ∧
            getNested (trpoConfigScript stT defAddrT) defAddrT "experiment"
                "checkpoint_interval" = some (CVal.num 125) ∧
              (trpoConfigScript stT defAddrT).heap defAddrT =
                stT.heap defAddrT := by
  obtain ⟨ha1, ha2, ha3⟩ :=
    a2cConfigScript_final st defAddr expAddr hexp hd he hde
  obtain ⟨ht1, ht2, ht3⟩ :=
    trpoConfigScript_final stT defAddrT expAddrT hexpT hdT heT hdeT
  refine ⟨?_, ?_, ha3, ?_, ?_, ht3⟩
  · unfold getNested
    rw [ha3, hexp]
    simp [ha2, dictGet_dictSet]
  · unfold getNested
    rw [ha3, hexp]
    simp [ha2, dictGet_dictSet]
  · unfold getNested
    rw [ht3, hexpT]
    simp [ht2, dictGet_dictSet]
  · unfold getNested
    rw [ht3, hexpT]
    simp [ht2, dictGet_dictSet]

/-- Witness for C8 at the concrete modelled default heap: reading the
nested experiment dictionary through the default configuration object after
the scripts shows the scripts' interval values, and the top-level default
dictionary is unchanged. -/
theorem shallow_copy_mutates_default_experiment_witness :
    (dictGet (exampleDefaultState.heap 0) "experiment" =
        some (CVal.ref 1) ∧
      (0 : ℕ) ≠ exampleDefaultState.next ∧
        (1 : ℕ) ≠ exampleDefaultState.next ∧ (0 : ℕ) ≠ 1) ∧
    (getNested (a2cConfigScript exampleDefaultState 0) 0 "experiment"
        "write_interval" = some (CVal.num 500) ∧
      getNested (a2cConfigScript exampleDefaultState 0) 0 "experiment"
          "checkpoint_interval" = some (CVal.num 5000) ∧
        (a2cConfigScript exampleDefaultState 0).heap 0 =
            exampleDefaultState.heap 0 ∧
          getNested (trpoConfigScript exampleDefaultState 0) 0 "experiment"
              "write_interval" = some (CVal.num 16) ∧
            getNested (trpoConfigScript exampleDefaultState 0) 0 "experiment"
                "checkpoint_interval" = some (CVal.num 125) ∧
              (trpoConfigScript exampleDefaultState 0).heap 0 =
                exampleDefaultState.heap 0) := by
  have hexp : dictGet (exampleDefaultState.heap 0) "experiment" =
      some (CVal.ref 1) := rfl
  have hd : (0 : ℕ) ≠ exampleDefaultState.next := by decide
  have he : (1 : ℕ) ≠ exampleDefaultState.next := by decide
  have hde : (0 : ℕ) ≠ 1 := by decide
  exact ⟨⟨hexp, hd, he, hde⟩,
    shallow_copy_mutates_default_experiment exampleDefaultState
      exampleDefaultState 0 1 0 1 hexp hd he hde hexp hd he hde⟩

/-! ## C10: rollout length versus memory capacity -/

/-- The rollout buffer instantiated by the A2C script (line 68):
`RandomMemory(memory_size=1024, num_envs=env.num_envs, device=device)`. -/
def a2cMemory (T : Type) : RolloutMemory T := emptyMemory T 1024

/-- The rollout buffer instantiated by the TRPO script (line 68):
`RandomMemory(memory_size=16, num_envs=env.num_envs, device=device)`. -/
def trpoMemory (T : Type) : RolloutMemory T := emptyMemory T 16

/-- C10: in each script the configured rollout length equals the rollout
memory's configured capacity (1024 in the A2C script, 16 in the TRPO
script), so one update cycle consumes exactly one full buffer. -/
theorem rollouts_match_memory_capacity
    (st stT : PyState) (defAddr expAddr defAddrT expAddrT : ℕ)
    (hexp : dictGet (st.heap defAddr) "experiment" = some (CVal.ref expAddr))
    (hd : defAddr ≠ st.next) (he : expAddr ≠ st.next)
    (hde : defAddr ≠ expAddr)
    (hexpT : dictGet (stT.heap defAddrT) "experiment" =
      some (CVal.ref expAddrT))
    (hdT : defAddrT ≠ stT.next) (heT : expAddrT ≠ stT.next)
    (hdeT : defAddrT ≠ expAddrT) :
    dictGet ((a2cConfigScript st defAddr).heap st.next) "rollouts" =
        some (CVal.num ((a2cMemory Unit).capacity : ℚ)) ∧
      dictGet ((trpoConfigScript stT defAddrT).heap stT.next) "rollouts" =
        some (CVal.num ((trpoMemory Unit).capacity : ℚ)) := by
  constructor
  · rw [(a2cConfigScript_final st defAddr expAddr hexp hd he hde).1]
    simp [applySets, a2cOverrides, dictGet_dictSet, a2cMemory, emptyMemory]
  · rw [(trpoConfigScript_final stT defAddrT expAddrT hexpT hdT heT hdeT).1]
    simp [applySets, trpoOverrides, dictGet_dictSet, trpoMemory, emptyMemory]

/-- Witness for C10 at the concrete modelled default heap. -/
theorem rollouts_match_memory_capacity_witness :
    (dictGet (exampleDefaultState.heap 0) "experiment" =
        some (CVal.ref 1) ∧
      (0 : ℕ) ≠ exampleDefaultState.next ∧
        (1 : ℕ) ≠ exampleDefaultState.next ∧ (0 : ℕ) ≠ 1) ∧
    (dictGet ((a2cConfigScript exampleDefaultState 0).heap
          exampleDefaultState.next) "rollouts" =
        some (CVal.num ((a2cMemory Unit).capacity : ℚ)) ∧
      dictGet ((trpoConfigScript exampleDefaultState 0).heap
          exampleDefaultState.next) "rollouts" =
        some (CVal.num ((trpoMemory Unit).capacity : ℚ))) := by
  have hexp : dictGet (exampleDefaultState.heap 0) "experiment" =
      some (CVal.ref 1) := rfl
  have hd : (0 : ℕ) ≠ exampleDefaultState.next := by decide
  have he : (1 : ℕ) ≠ exampleDefaultState.next := by decide
  have hde : (0 : ℕ) ≠ 1 := by decide
  exact ⟨⟨hexp, hd, he, hde⟩,
    rollouts_match_memory_capacity exampleDefaultState exampleDefaultState
      0 1 0 1 hexp hd he hde hexp hd he hde⟩
